import Mathlib

/-!
# Verification of the plugin system of `macos-focus-utility`

A shallow embedding of `src/plugin_system.py` (classes `PluginBase` and
`PluginManager`), of the session-end paths of `src/focus_launcher.py`
(`ProgressPopup.session_complete`, `ProgressPopup.stop_focus_mode`), and of the
settings persistence in `src/plugin_settings_dialog.py`
(`PluginSettingsDialog.save_popup_interval_setting`).

Modelling conventions:
* Python values appearing in JSON files and in session-data dicts become the
  inductive `PyValue`; dicts become insertion-ordered association lists.
* A Python call that may raise becomes a value of `Except Unit _`; a caught
  exception (`try`/`except`) is translated by the explicit `match` on that
  `Except` at the catch site.
* Side effects (calling a plugin's `cleanup`, writing the settings file) are
  returned as an explicit effect trace, and each hook dispatcher returns the
  list of invocations it performed (plugin id, arguments passed, outcome of
  the call), in the order it performed them.
* Plugin behaviour (the dynamically imported module, its `Plugin` class and
  the hook methods of the instance) is opaque Python code; it is embedded as
  fields of `PluginInstance` holding arbitrary functions into `Except Unit _`.
-/

namespace FocusUtility

/-- Python/JSON values as they appear in the settings file and in the
session-data dicts.  `dictV` is an insertion-ordered association list, as a
Python `dict` is; `setV` stands for a Python `set` of strings (the element
order list is an abstraction of the set's iteration order); `timeV` stands
for a `datetime` instant, measured in seconds. -/
inductive PyValue where
  | boolV (b : Bool)
  | numV (q : ℚ)
  | strV (s : String)
  | listV (xs : List PyValue)
  | dictV (fs : List (String × PyValue))
  | setV (xs : List String)
  | timeV (t : ℚ)

/-- Association-list lookup, keyed by strings: the meaning of `d[k]` /
`k in d` on a Python dict embedded as an ordered association list. -/
def alookup {α : Type} (k : String) : List (String × α) → Option α
  | [] => none
  | (k2, v) :: rest => if k2 = k then some v else alookup k rest

/-- A session-data dict, as passed to the lifecycle hooks. -/
abbrev SessionDict := List (String × PyValue)

/-- A loaded plugin instance (an object of the `Plugin` class of some plugin
module, which subclasses `PluginBase`).  The hook methods are arbitrary
plugin code: each is a function of the hook's arguments that either returns
normally (`Except.ok`) or raises (`Except.error`).  `initFn` is the result of
calling `initialize()` (source name avoided for a technical reason) and
`cleanupFn` the result of calling `cleanup()`. -/
structure PluginInstance where
  name : String
  version : String
  description : String
  enabled : Bool
  initFn : Except Unit Bool
  cleanupFn : Except Unit Unit
  on_goals_analyzed : List String → String → Except Unit (List String)
  on_session_start : SessionDict → Except Unit Unit
  on_session_update : ℚ → ℚ → Except Unit Unit
  on_session_end : SessionDict → Except Unit Unit
  on_checklist_item_changed : String → Bool → Except Unit Unit

/-- A discovered plugin's manifest together with the behaviour of its main
file.  `loadResult` summarises the dynamic import performed by `load_plugin`:
`.error ()` means importing/executing the module or constructing `Plugin()`
raised, `.ok none` means the module has no `Plugin` class, and
`.ok (some inst)` means `Plugin()` produced the instance `inst`. -/
structure Manifest where
  name : String
  version : String
  description : String
  main_file : String
  loadResult : Except Unit (Option PluginInstance)

/-- The mutable state of `PluginManager`: the discovered manifests
(`available_plugins`), the successfully loaded instances (`loaded_plugins`)
and the enabled plugin ids (`enabled_plugins`). -/
structure PluginManager where
  available_plugins : List (String × Manifest)
  loaded_plugins : List (String × PluginInstance)
  enabled_plugins : List String

/-- Observable side effects of the manager's mutating operations. -/
inductive Effect where
  | cleanupCall (plugin_id : String)
  | saveSettingsWrite (file : PyValue)

/-- `PluginManager.save_settings`: the JSON value written to the settings
file.  Note that it contains only the `enabled_plugins` key: the written
object replaces the whole file. -/
def save_settings (pm : PluginManager) : PyValue :=
  .dictV [("enabled_plugins", .listV (pm.enabled_plugins.map .strV))]

/-- Keep the strings of a list of Python values: the embedding types
`enabled_plugins` as a list of strings, which is the only shape this program
ever writes. -/
def pyStrings (xs : List PyValue) : List String :=
  xs.filterMap fun v => match v with
    | .strV s => some s
    | _ => none

/-- `PluginManager.load_settings`, reduced to the `enabled_plugins` list it
produces.  `none` means the settings file does not exist (the field is left
unchanged); a file whose top level is not an object makes `settings.get`
raise, and the `except` branch resets the list to `[]`; an object without
the key yields the default `[]`. -/
def load_settings_list (file : Option PyValue) : Option (List String) :=
  match file with
  | none => none
  | some (.dictV fields) =>
      some (match alookup "enabled_plugins" fields with
            | some (.listV xs) => pyStrings xs
            | _ => [])
  | some _ => some []

/-- `PluginManager.load_settings` acting on the manager state. -/
def PluginManager.load_settings (pm : PluginManager) (file : Option PyValue) :
    PluginManager :=
  match load_settings_list file with
  | none => pm
  | some l => { pm with enabled_plugins := l }

/-- Set the `enabled` attribute of the loaded instance stored under `pid`
(the statement `self.loaded_plugins[plugin_id].enabled = b`). -/
def setPluginEnabled (loaded : List (String × PluginInstance)) (pid : String)
    (b : Bool) : List (String × PluginInstance) :=
  loaded.map fun kv => if kv.1 = pid then (kv.1, { kv.2 with enabled := b }) else kv

/-- Python's `list.remove`: drop the first occurrence of `x`. -/
def pyRemove (x : String) : List String → List String
  | [] => []
  | y :: rest => if y = x then rest else y :: pyRemove x rest

/-- Python's `list.copy()`: on the immutable embedding of lists, the value is
unchanged; the definition records that the fold below does not start from the
caller's list object. -/
def pyCopy (xs : List String) : List String := xs

/-- `PluginManager.load_plugin`.  Returns the new state and the boolean the
method returns.  The body's `try` catches both a raising import
(`manifest.loadResult = .error`) and a raising `initialize()`
(`inst.initFn = .error`); either way the method returns `False` and the
state is unchanged. -/
def PluginManager.load_plugin (pm : PluginManager) (pid : String) :
    PluginManager × Bool :=
  match alookup pid pm.available_plugins with
  | none => (pm, false)
  | some manifest =>
    match alookup pid pm.loaded_plugins with
    | some _ => (pm, true)
    | none =>
      match manifest.loadResult with
      | .error _ => (pm, false)
      | .ok none => (pm, false)
      | .ok (some inst0) =>
        let inst := { inst0 with name := manifest.name,
                                 version := manifest.version,
                                 description := manifest.description }
        match inst.initFn with
        | .ok true => ({ pm with loaded_plugins := pm.loaded_plugins ++ [(pid, inst)] }, true)
        | .ok false => (pm, false)
        | .error _ => (pm, false)

/-- `PluginManager.enable_plugin`: new state, effect trace, returned boolean. -/
def PluginManager.enable_plugin (pm : PluginManager) (pid : String) :
    PluginManager × List Effect × Bool :=
  match alookup pid pm.available_plugins with
  | none => (pm, [], false)
  | some _ =>
    match pm.load_plugin pid with
    | (pm1, false) => (pm1, [], false)
    | (pm1, true) =>
      if pid ∈ pm1.enabled_plugins then (pm1, [], true)
      else
        let pm2 : PluginManager :=
          { pm1 with enabled_plugins := pm1.enabled_plugins ++ [pid],
                     loaded_plugins := setPluginEnabled pm1.loaded_plugins pid true }
        (pm2, [.saveSettingsWrite (save_settings pm2)], true)

/-- `PluginManager.disable_plugin`: new state, effect trace, and result.  The
call to `cleanup()` is not guarded by a `try`, so a raising `cleanup`
propagates out of the method (`Except.error`): the settings are then not
saved and no boolean is returned. -/
def PluginManager.disable_plugin (pm : PluginManager) (pid : String) :
    PluginManager × List Effect × Except Unit Bool :=
  if pid ∈ pm.enabled_plugins then
    let pm1 : PluginManager := { pm with enabled_plugins := pyRemove pid pm.enabled_plugins }
    match alookup pid pm1.loaded_plugins with
    | some inst =>
      let pm2 : PluginManager :=
        { pm1 with loaded_plugins := setPluginEnabled pm1.loaded_plugins pid false }
      match inst.cleanupFn with
      | .ok _ => (pm2, [.cleanupCall pid, .saveSettingsWrite (save_settings pm2)], .ok true)
      | .error e => (pm2, [.cleanupCall pid], .error e)
    | none => (pm1, [.saveSettingsWrite (save_settings pm1)], .ok true)
  else (pm, [], .ok false)

/-- `PluginManager.is_plugin_enabled`. -/
def PluginManager.is_plugin_enabled (pm : PluginManager) (pid : String) : Bool :=
  pid ∈ pm.enabled_plugins

/-- The plugins a dispatch loop actually reaches: the ids of
`enabled_plugins`, in list order, that are also keys of `loaded_plugins`,
paired with the loaded instance. -/
def PluginManager.effectivePlugins (pm : PluginManager) :
    List (String × PluginInstance) :=
  pm.enabled_plugins.filterMap fun pid =>
    (alookup pid pm.loaded_plugins).map fun inst => (pid, inst)

/-- One iteration of the loop of `call_goals_analyzed_hooks`: if `pid` is
loaded, call its `on_goals_analyzed` on the accumulated list; a raised
exception is caught and leaves the accumulator unchanged.  The second
component is the invocation trace (plugin id, goals list passed, outcome). -/
def goalsStep (loaded : List (String × PluginInstance)) (goals_text : String)
    (acc : List String × List (String × List String × Except Unit (List String)))
    (pid : String) :
    List String × List (String × List String × Except Unit (List String)) :=
  match alookup pid loaded with
  | some inst =>
    let outcome := inst.on_goals_analyzed acc.1 goals_text
    (match outcome with
     | .ok new => new
     | .error _ => acc.1,
     acc.2 ++ [(pid, acc.1, outcome)])
  | none => acc

/-- `PluginManager.call_goals_analyzed_hooks`: returns the final
`result_goals` and the invocation trace.  The loop starts from a copy of the
caller's goals list. -/
def PluginManager.call_goals_analyzed_hooks (pm : PluginManager)
    (goals : List String) (goals_text : String) :
    List String × List (String × List String × Except Unit (List String)) :=
  pm.enabled_plugins.foldl (goalsStep pm.loaded_plugins goals_text) (pyCopy goals, [])

/-- `PluginManager.call_session_start_hooks`: the invocation trace.  Each
enabled-and-loaded plugin is called with `session_data`; the `try` around the
call catches a raising hook (the `.error` outcome) and the loop continues. -/
def PluginManager.call_session_start_hooks (pm : PluginManager)
    (session_data : SessionDict) :
    List (String × SessionDict × Except Unit Unit) :=
  pm.enabled_plugins.filterMap fun pid =>
    match alookup pid pm.loaded_plugins with
    | some inst => some (pid, session_data, inst.on_session_start session_data)
    | none => none

/-- `PluginManager.call_session_update_hooks`: the invocation trace. -/
def PluginManager.call_session_update_hooks (pm : PluginManager)
    (elapsed_minutes progress_percent : ℚ) :
    List (String × (ℚ × ℚ) × Except Unit Unit) :=
  pm.enabled_plugins.filterMap fun pid =>
    match alookup pid pm.loaded_plugins with
    | some inst => some (pid, (elapsed_minutes, progress_percent),
                         inst.on_session_update elapsed_minutes progress_percent)
    | none => none

/-- `PluginManager.call_session_end_hooks`: the invocation trace. -/
def PluginManager.call_session_end_hooks (pm : PluginManager)
    (session_data : SessionDict) :
    List (String × SessionDict × Except Unit Unit) :=
  pm.enabled_plugins.filterMap fun pid =>
    match alookup pid pm.loaded_plugins with
    | some inst => some (pid, session_data, inst.on_session_end session_data)
    | none => none

/-- `PluginManager.call_checklist_item_changed_hooks`: the invocation trace. -/
def PluginManager.call_checklist_item_changed_hooks (pm : PluginManager)
    (item_text : String) (is_checked : Bool) :
    List (String × (String × Bool) × Except Unit Unit) :=
  pm.enabled_plugins.filterMap fun pid =>
    match alookup pid pm.loaded_plugins with
    | some inst => some (pid, (item_text, is_checked),
                         inst.on_checklist_item_changed item_text is_checked)
    | none => none

/-- The session fields of `ProgressPopup` that the two session-end paths
read: planned duration (minutes), start time, goals, completed goals
(a Python set of strings) and the per-app usage dict. -/
structure SessionState where
  session_duration : ℚ
  start_time : ℚ
  goals : List String
  completed_goals : List String
  app_usage : List (String × PyValue)

/-- The session-data dict built by `ProgressPopup.session_complete` (natural
completion).  `now` is the value of the `datetime.now()` call used for the
duration, `endNow` that of the call stored under `end_time`. -/
def session_complete_data (st : SessionState) (now endNow : ℚ) : SessionDict :=
  let actual_duration := (now - st.start_time) / 60
  [("duration", .numV actual_duration),
   ("planned_duration", .numV st.session_duration),
   ("goals", .listV (st.goals.map .strV)),
   ("completed_goals", .setV st.completed_goals),
   ("app_usage", .dictV st.app_usage),
   ("end_time", .timeV endNow)]

/-- The session-data dict built by `ProgressPopup.stop_focus_mode` (manual
stop): the same fields plus `early_termination: True`. -/
def stop_focus_mode_data (st : SessionState) (now endNow : ℚ) : SessionDict :=
  let actual_duration := (now - st.start_time) / 60
  [("duration", .numV actual_duration),
   ("planned_duration", .numV st.session_duration),
   ("goals", .listV (st.goals.map .strV)),
   ("completed_goals", .setV st.completed_goals),
   ("app_usage", .dictV st.app_usage),
   ("end_time", .timeV endNow),
   ("early_termination", .boolV true)]

/-- The hook dispatch performed by `ProgressPopup.session_complete`:
`plugin_manager.call_session_end_hooks(session_data)` on the dict above. -/
def session_complete_hook_calls (pm : PluginManager) (st : SessionState)
    (now endNow : ℚ) : List (String × SessionDict × Except Unit Unit) :=
  pm.call_session_end_hooks (session_complete_data st now endNow)

/-- The hook dispatch performed by `ProgressPopup.stop_focus_mode`. -/
def stop_focus_mode_hook_calls (pm : PluginManager) (st : SessionState)
    (now endNow : ℚ) : List (String × SessionDict × Except Unit Unit) :=
  pm.call_session_end_hooks (stop_focus_mode_data st now endNow)

/-- The checklist API of the active session (`ProgressPopup`) that
`PluginBase` delegates to, abstracted as the values those four methods would
return. -/
structure ChecklistApi where
  get_checklist_progress_percentage : ℚ
  get_completed_checklist_items : List String
  get_all_checklist_items : List String
  set_checklist_item_checked : String → Bool → Bool

/-- The part of a `PluginBase` object's state its checklist accessors read:
the injected session reference `_progress_popup` (None when no session is
active). -/
structure PluginBaseObj where
  progress_popup : Option ChecklistApi

/-- `PluginBase.get_checklist_progress_percentage`. -/
def PluginBaseObj.get_checklist_progress_percentage (p : PluginBaseObj) : ℚ :=
  match p.progress_popup with
  | some popup => popup.get_checklist_progress_percentage
  | none => 0

/-- `PluginBase.get_completed_checklist_items`. -/
def PluginBaseObj.get_completed_checklist_items (p : PluginBaseObj) : List String :=
  match p.progress_popup with
  | some popup => popup.get_completed_checklist_items
  | none => []

/-- `PluginBase.get_all_checklist_items`. -/
def PluginBaseObj.get_all_checklist_items (p : PluginBaseObj) : List String :=
  match p.progress_popup with
  | some popup => popup.get_all_checklist_items
  | none => []

/-- `PluginBase.set_checklist_item_checked`. -/
def PluginBaseObj.set_checklist_item_checked (p : PluginBaseObj)
    (item_text : String) (checked : Bool) : Bool :=
  match p.progress_popup with
  | some popup => popup.set_checklist_item_checked item_text checked
  | none => false

/-- Python dict assignment `d[k] = v` on the ordered association list:
update in place if the key exists, append otherwise. -/
def setField (fs : List (String × PyValue)) (k : String) (v : PyValue) :
    List (String × PyValue) :=
  if (alookup k fs).isSome then
    fs.map fun kv => if kv.1 = k then (k, v) else kv
  else fs ++ [(k, v)]

/-- `PluginSettingsDialog.save_popup_interval_setting`: read the settings
file (`none` = missing file), set `app_settings.popup_interval_minutes`,
write the file back.  A file whose top level is not an object, or whose
`app_settings` value is not an object, makes the subscript assignment raise;
the `except` branch then leaves the file unwritten. -/
def save_popup_interval_setting (file : Option PyValue)
    (interval_minutes : ℚ) : Option PyValue :=
  match file with
  | none =>
      some (.dictV [("app_settings",
                     .dictV [("popup_interval_minutes", .numV interval_minutes)])])
  | some (.dictV fs) =>
      match alookup "app_settings" fs with
      | some (.dictV afs) =>
          some (.dictV (setField fs "app_settings"
                 (.dictV (setField afs "popup_interval_minutes" (.numV interval_minutes)))))
      | some _ => file
      | none =>
          some (.dictV (fs ++ [("app_settings",
                 .dictV [("popup_interval_minutes", .numV interval_minutes)])]))
  | some _ => file

/-- Count how many times `cleanup()` was called on the plugin `pid` in an
effect trace. -/
def countCleanupCalls (pid : String) (effs : List Effect) : ℕ :=
  (effs.filter fun e => match e with
    | .cleanupCall q => q == pid
    | _ => false).length

/-- A plugin instance with the default `PluginBase` behaviour: `initialize`
returns `True`, `cleanup` returns, `on_goals_analyzed` returns its input and
the other hooks are no-ops. -/
def noopPlugin : PluginInstance where
  name := "Unknown Plugin"
  version := "1.0.0"
  description := "A focus utility plugin"
  enabled := false
  initFn := .ok true
  cleanupFn := .ok ()
  on_goals_analyzed := fun goals _ => .ok goals
  on_session_start := fun _ => .ok ()
  on_session_update := fun _ _ => .ok ()
  on_session_end := fun _ => .ok ()
  on_checklist_item_changed := fun _ _ => .ok ()

/-- A plugin whose `on_goals_analyzed` appends the string `s`. -/
def appendPlugin (s : String) : PluginInstance :=
  { noopPlugin with on_goals_analyzed := fun goals _ => .ok (goals ++ [s]) }

/-- A plugin whose four fire-and-forget hooks all raise. -/
def raiserPlugin : PluginInstance :=
  { noopPlugin with
      on_session_start := fun _ => .error (),
      on_session_update := fun _ _ => .error (),
      on_session_end := fun _ => .error (),
      on_checklist_item_changed := fun _ _ => .error () }

/-- Apply a goal behaviour: a raising plugin leaves the goals unchanged. -/
def applyBehavior (behavior : Option (List String → List String))
    (goals : List String) : List String :=
  match behavior with
  | some f => f goals
  | none => goals

/-- The outcome of calling a goal behaviour: normal return of the
transformed list, or a raised exception. -/
def behaviorOutcome (behavior : Option (List String → List String))
    (goals : List String) : Except Unit (List String) :=
  match behavior with
  | some f => .ok (f goals)
  | none => .error ()

/-- A plugin whose `on_goals_analyzed` either applies the pure transformation
`f` (`behavior = some f`) or raises (`behavior = none`). -/
def mkGoalsPlugin (behavior : Option (List String → List String)) :
    PluginInstance :=
  { noopPlugin with on_goals_analyzed := fun goals _ =>
      behaviorOutcome behavior goals }

/-- A manager whose enabled, loaded plugins are exactly the given list of
(id, `on_goals_analyzed` behaviour) pairs, in order. -/
def mkGoalsMgr (ps : List (String × Option (List String → List String))) :
    PluginManager where
  available_plugins := []
  loaded_plugins := ps.map fun q => (q.1, mkGoalsPlugin q.2)
  enabled_plugins := ps.map Prod.fst

/-- The invocation trace `call_goals_analyzed_hooks` on `mkGoalsMgr ps`
should produce: each plugin receives the goals list accumulated by the
non-raising plugins before it; a raising plugin leaves the accumulator
unchanged for its successors. -/
def expectedGoalsTrace (gt : String) :
    List String → List (String × Option (List String → List String)) →
    List (String × List String × Except Unit (List String))
  | _, [] => []
  | goals, (pid, behavior) :: rest =>
      (pid, goals, behaviorOutcome behavior goals)
        :: expectedGoalsTrace gt (applyBehavior behavior goals) rest

/-- A manager with a plugin whose hooks all raise, enabled before a
well-behaved one. -/
def pmRaise : PluginManager where
  available_plugins := []
  loaded_plugins := [("boom", raiserPlugin), ("ok", noopPlugin)]
  enabled_plugins := ["boom", "ok"]

/-- A manager with one enabled, loaded plugin. -/
def pmOne : PluginManager where
  available_plugins := []
  loaded_plugins := [("p1", noopPlugin)]
  enabled_plugins := ["p1"]

/-- A plugin whose `cleanup()` raises. -/
def badCleanupPlugin : PluginInstance :=
  { noopPlugin with cleanupFn := .error () }

/-- A manager with one enabled, loaded plugin whose `cleanup()` raises. -/
def pmBadCleanup : PluginManager where
  available_plugins := []
  loaded_plugins := [("p1", badCleanupPlugin)]
  enabled_plugins := ["p1"]

/-- The spec's example scenario for a failed `initialize`: a plugin whose
`initialize()` returns `False`. -/
def failingInitPlugin : PluginInstance :=
  { noopPlugin with initFn := .ok false }

/-- The spec's example manifest
`{"name":"X","version":"1.0","description":"d","main_file":"plugin.py"}`
whose `Plugin` class initializes unsuccessfully. -/
def manifestX : Manifest where
  name := "X"
  version := "1.0"
  description := "d"
  main_file := "plugin.py"
  loadResult := .ok (some failingInitPlugin)

/-- A manager that discovered the plugin directory `x` with `manifestX`,
with nothing yet loaded or enabled. -/
def pmX : PluginManager where
  available_plugins := [("x", manifestX)]
  loaded_plugins := []
  enabled_plugins := []

/-- The two goals-transforming plugins of the spec's order example, with a
raiser between them. -/
def psABExample : List (String × Option (List String → List String)) :=
  [("p1", some fun goals => goals ++ ["a"]),
   ("boom", none),
   ("p2", some fun goals => goals ++ ["b"])]

/-- A settings file that holds both `enabled_plugins` and `app_settings`, as
the spec describes the file. -/
def bothFields : List (String × PyValue) :=
  [("enabled_plugins", .listV [.strV "p1"]),
   ("app_settings", .dictV [("popup_interval_minutes", .numV 5),
                            ("breath_duration_seconds", .numV 15)])]

/-- A `PluginBase` object outside any session (`_progress_popup is None`). -/
def pbNoSession : PluginBaseObj where
  progress_popup := none

/-- The spec's order example: plugin `p1` appending "a" enabled before
plugin `p2` appending "b". -/
def pmAppendAB : PluginManager where
  available_plugins := []
  loaded_plugins := [("p1", appendPlugin "a"), ("p2", appendPlugin "b")]
  enabled_plugins := ["p1", "p2"]

/-- The common shape of the four fire-and-forget dispatch loops: the
filterMap over `enabled_plugins` factors through the effective plugin
list. -/
theorem filterMap_match_eq {γ : Type} (loaded : List (String × PluginInstance))
    (mk : String → PluginInstance → γ) :
    ∀ l : List String,
      (l.filterMap fun pid =>
        match alookup pid loaded with
        | some inst => some (mk pid inst)
        | none => none)
      = (l.filterMap fun pid =>
          (alookup pid loaded).map fun inst => (pid, inst)).map
          fun q => mk q.1 q.2 := by
  intro l
  induction l with
  | nil => rfl
  | cons pid rest ih =>
    cases h : alookup pid loaded <;>
      simp [List.filterMap_cons, h, ih]

/-- `call_session_start_hooks` invokes exactly the effective plugins, in
order, each with the dispatched session data. -/
theorem call_session_start_hooks_eq (pm : PluginManager) (sd : SessionDict) :
    pm.call_session_start_hooks sd
      = pm.effectivePlugins.map fun q => (q.1, sd, q.2.on_session_start sd) :=
  filterMap_match_eq pm.loaded_plugins
    (fun pid inst => (pid, sd, inst.on_session_start sd)) pm.enabled_plugins

/-- `call_session_update_hooks` invokes exactly the effective plugins. -/
theorem call_session_update_hooks_eq (pm : PluginManager) (e p : ℚ) :
    pm.call_session_update_hooks e p
      = pm.effectivePlugins.map fun q =>
          (q.1, (e, p), q.2.on_session_update e p) :=
  filterMap_match_eq pm.loaded_plugins
    (fun pid inst => (pid, (e, p), inst.on_session_update e p)) pm.enabled_plugins

/-- `call_session_end_hooks` invokes exactly the effective plugins. -/
theorem call_session_end_hooks_eq (pm : PluginManager) (sd : SessionDict) :
    pm.call_session_end_hooks sd
      = pm.effectivePlugins.map fun q => (q.1, sd, q.2.on_session_end sd) :=
  filterMap_match_eq pm.loaded_plugins
    (fun pid inst => (pid, sd, inst.on_session_end sd)) pm.enabled_plugins

/-- `call_checklist_item_changed_hooks` invokes exactly the effective
plugins. -/
theorem call_checklist_item_changed_hooks_eq (pm : PluginManager)
    (it : String) (b : Bool) :
    pm.call_checklist_item_changed_hooks it b
      = pm.effectivePlugins.map fun q =>
          (q.1, (it, b), q.2.on_checklist_item_changed it b) :=
  filterMap_match_eq pm.loaded_plugins
    (fun pid inst => (pid, (it, b), inst.on_checklist_item_changed it b))
    pm.enabled_plugins

/-- Membership in the effective plugin list means: enabled and loaded. -/
theorem effectivePlugins_mem (pm : PluginManager) (q : String × PluginInstance)
    (h : q ∈ pm.effectivePlugins) :
    q.1 ∈ pm.enabled_plugins ∧ alookup q.1 pm.loaded_plugins = some q.2 := by
  unfold PluginManager.effectivePlugins at h
  rcases List.mem_filterMap.mp h with ⟨pid, hpid, hmap⟩
  cases hl : alookup pid pm.loaded_plugins with
  | none => rw [hl] at hmap; exact absurd hmap (by simp)
  | some inst =>
    rw [hl] at hmap
    cases hmap
    exact ⟨hpid, hl⟩

/-- Entries of the goals-fold invocation trace come from the initial
accumulator or from enabled-and-loaded ids of the iterated list. -/
theorem goals_foldl_trace_mem (loaded : List (String × PluginInstance))
    (gt : String) :
    ∀ (l : List String)
      (acc : List String × List (String × List String × Except Unit (List String)))
      (r : String × List String × Except Unit (List String)),
      r ∈ (l.foldl (goalsStep loaded gt) acc).2 →
      r ∈ acc.2 ∨ (r.1 ∈ l ∧ (alookup r.1 loaded).isSome) := by
  intro l
  induction l with
  | nil => intro acc r h; exact Or.inl h
  | cons pid rest ih =>
    intro acc r h
    rw [List.foldl_cons] at h
    rcases ih (goalsStep loaded gt acc pid) r h with h2 | h2
    · cases hl : alookup pid loaded with
      | none =>
        unfold goalsStep at h2; rw [hl] at h2
        exact Or.inl h2
      | some inst =>
        unfold goalsStep at h2; rw [hl] at h2
        simp only [List.mem_append, List.mem_singleton] at h2
        rcases h2 with h3 | h3
        · exact Or.inl h3
        · subst h3
          exact Or.inr ⟨List.mem_cons_self _ _, by rw [hl]; rfl⟩
    · exact Or.inr ⟨List.mem_cons_of_mem _ h2.1, h2.2⟩

/-- The result component of the goals fold does not depend on the trace
accumulator and equals a fold over the effective plugins, where a caught
exception leaves the accumulated list unchanged. -/
theorem goals_foldl_result (loaded : List (String × PluginInstance))
    (gt : String) :
    ∀ (l : List String) (g : List String)
      (tr : List (String × List String × Except Unit (List String))),
      (l.foldl (goalsStep loaded gt) (g, tr)).1
        = (l.filterMap fun pid =>
            (alookup pid loaded).map fun inst => (pid, inst)).foldl
            (fun acc q =>
              match q.2.on_goals_analyzed acc gt with
              | .ok new => new
              | .error _ => acc) g := by
  intro l
  induction l with
  | nil => intro g tr; rfl
  | cons pid rest ih =>
    intro g tr
    rw [List.foldl_cons]
    cases hl : alookup pid loaded with
    | none =>
      unfold goalsStep; rw [hl]
      simp only [List.filterMap_cons, hl, Option.map_none]
      exact ih g tr
    | some inst =>
      unfold goalsStep; rw [hl]
      simp only [List.filterMap_cons, hl, Option.map_some, List.foldl_cons]
      exact ih _ _

/-- The goals fold only consults the loaded-plugin table through `alookup`
of the iterated ids. -/
theorem foldl_goalsStep_congr (L1 L2 : List (String × PluginInstance))
    (gt : String) :
    ∀ (l : List String), (∀ pid ∈ l, alookup pid L1 = alookup pid L2) →
      ∀ (acc : List String × List (String × List String × Except Unit (List String))),
        l.foldl (goalsStep L1 gt) acc = l.foldl (goalsStep L2 gt) acc := by
  intro l
  induction l with
  | nil => intro _ _; rfl
  | cons pid rest ih =>
    intro h acc
    rw [List.foldl_cons, List.foldl_cons]
    have hstep : goalsStep L1 gt acc pid = goalsStep L2 gt acc pid := by
      unfold goalsStep
      rw [h pid (List.mem_cons_self _ _)]
    rw [hstep]
    exact ih (fun q hq => h q (List.mem_cons_of_mem _ hq)) _

/-- The goals fold threads its trace by appending: running from `(g, tr)` is
running from `(g, [])` with `tr` prefixed to the produced trace. -/
theorem foldl_goalsStep_trace (L : List (String × PluginInstance))
    (gt : String) :
    ∀ (l : List String) (g : List String)
      (tr : List (String × List String × Except Unit (List String))),
      l.foldl (goalsStep L gt) (g, tr)
        = ((l.foldl (goalsStep L gt) (g, [])).1,
           tr ++ (l.foldl (goalsStep L gt) (g, [])).2) := by
  intro l
  induction l with
  | nil => intro g tr; simp
  | cons pid rest ih =>
    intro g tr
    rw [List.foldl_cons, List.foldl_cons]
    cases hl : alookup pid L with
    | none =>
      have hstep : ∀ tr2, goalsStep L gt (g, tr2) pid = (g, tr2) := by
        intro tr2; unfold goalsStep; rw [hl]
      rw [hstep tr, hstep []]
      exact ih g tr
    | some inst =>
      have hstep : ∀ tr2, goalsStep L gt (g, tr2) pid
          = ((match inst.on_goals_analyzed g gt with
              | .ok new => new
              | .error _ => g),
             tr2 ++ [(pid, g, inst.on_goals_analyzed g gt)]) := by
        intro tr2; unfold goalsStep; rw [hl]
      rw [hstep tr, hstep []]
      rw [ih _ (tr ++ [(pid, g, inst.on_goals_analyzed g gt)]),
          ih _ ([] ++ [(pid, g, inst.on_goals_analyzed g gt)])]
      simp

/-- On a manager built from a list of goal behaviours with distinct ids,
`call_goals_analyzed_hooks` computes the fold of the non-raising
transformations and produces the expected invocation trace. -/
theorem mkGoalsMgr_spec (gt : String) :
    ∀ (ps : List (String × Option (List String → List String))),
      (ps.map Prod.fst).Nodup →
      ∀ (goals : List String),
        (ps.map Prod.fst).foldl
            (goalsStep (ps.map fun q => (q.1, mkGoalsPlugin q.2)) gt) (goals, [])
          = ((ps.filterMap Prod.snd).foldl (fun acc f => f acc) goals,
             expectedGoalsTrace gt goals ps) := by
  intro ps
  induction ps with
  | nil => intro _ goals; rfl
  | cons hd rest ih =>
    intro hnodup goals
    obtain ⟨pid, behavior⟩ := hd
    have hnotin : pid ∉ rest.map Prod.fst := (List.nodup_cons.mp hnodup).1
    have hrest : (rest.map Prod.fst).Nodup := (List.nodup_cons.mp hnodup).2
    clear hnodup
    simp only [List.map_cons, List.foldl_cons]
    have hstep :
        goalsStep ((pid, mkGoalsPlugin behavior)
            :: rest.map fun q => (q.1, mkGoalsPlugin q.2)) gt (goals, []) pid
        = (applyBehavior behavior goals,
           [(pid, goals, behaviorOutcome behavior goals)]) := by
      unfold goalsStep
      simp only [alookup, if_pos rfl]
      cases behavior <;> rfl
    rw [hstep]
    have hcongr := foldl_goalsStep_congr
      ((pid, mkGoalsPlugin behavior) :: rest.map fun q => (q.1, mkGoalsPlugin q.2))
      (rest.map fun q => (q.1, mkGoalsPlugin q.2)) gt (rest.map Prod.fst)
      (by
        intro qid hq
        show alookup qid _ = alookup qid _
        simp only [alookup]
        rw [if_neg (fun hcontra => hnotin (by rw [hcontra]; exact hq))])
    rw [hcongr]
    rw [foldl_goalsStep_trace]
    rw [ih hrest]
    cases behavior with
    | none =>
      simp [expectedGoalsTrace, applyBehavior, behaviorOutcome,
            List.filterMap_cons]
    | some f =>
      simp [expectedGoalsTrace, applyBehavior, behaviorOutcome,
            List.filterMap_cons]

/-- Python's `list.remove` on a duplicate-free list removes the element. -/
theorem pyRemove_not_mem (x : String) :
    ∀ (l : List String), l.Nodup → x ∉ pyRemove x l := by
  intro l
  induction l with
  | nil => intro _ h; exact absurd h (List.not_mem_nil x)
  | cons y rest ih =>
    intro hnodup
    unfold pyRemove
    by_cases hxy : y = x
    · rw [if_pos hxy]
      subst hxy
      exact (List.nodup_cons.mp hnodup).1
    · rw [if_neg hxy]
      intro hmem
      rcases List.mem_cons.mp hmem with h | h
      · exact hxy h.symm
      · exact ih (List.nodup_cons.mp hnodup).2 h

/-- Decoding the strings back out of an encoded string list is the
identity. -/
theorem pyStrings_map_strV (l : List String) :
    pyStrings (l.map .strV) = l := by
  induction l with
  | nil => rfl
  | cons s rest ih => simp [pyStrings, List.filterMap_cons] at ih ⊢; exact ih

/-- C1: for every fire-and-forget hook dispatch (`call_session_start_hooks`,
`call_session_update_hooks`, `call_session_end_hooks`,
`call_checklist_item_changed_hooks`) and every list of enabled, loaded
plugins, if one plugin's hook raises an exception, the dispatcher catches it
(the raising call's outcome is recorded in the trace and discarded) and every
subsequent plugin in `enabled_plugins` order still has its hook invoked with
the same arguments in the same dispatch pass: each dispatch trace is exactly
the effective plugin list, in order, every entry carrying the dispatched
arguments. -/
theorem C1_fire_and_forget_exception_isolation
    (pm : PluginManager) (sd : SessionDict) (e p : ℚ) (it : String) (b : Bool)
    (_hraise : ∃ q ∈ pm.effectivePlugins,
        q.2.on_session_start sd = .error ()
        ∨ q.2.on_session_update e p = .error ()
        ∨ q.2.on_session_end sd = .error ()
        ∨ q.2.on_checklist_item_changed it b = .error ()) :
    pm.call_session_start_hooks sd
        = pm.effectivePlugins.map (fun q => (q.1, sd, q.2.on_session_start sd))
    ∧ pm.call_session_update_hooks e p
        = pm.effectivePlugins.map
            (fun q => (q.1, (e, p), q.2.on_session_update e p))
    ∧ pm.call_session_end_hooks sd
        = pm.effectivePlugins.map (fun q => (q.1, sd, q.2.on_session_end sd))
    ∧ pm.call_checklist_item_changed_hooks it b
        = pm.effectivePlugins.map
            (fun q => (q.1, (it, b), q.2.on_checklist_item_changed it b)) :=
  ⟨call_session_start_hooks_eq pm sd, call_session_update_hooks_eq pm e p,
   call_session_end_hooks_eq pm sd, call_checklist_item_changed_hooks_eq pm it b⟩

/-- Witness for C1: on a manager whose first enabled plugin raises in every
hook, the well-behaved plugin enabled after it is still invoked with the
same arguments. -/
theorem C1_fire_and_forget_exception_isolation_witness :
    pmRaise.call_session_start_hooks []
      = [("boom", [], .error ()), ("ok", [], .ok ())] := by
  have h := C1_fire_and_forget_exception_isolation pmRaise [] 0 0 "item" true
    ⟨("boom", raiserPlugin), List.mem_cons_self _ _, Or.inl rfl⟩
  rw [h.1]
  rfl

/-- C2: `call_goals_analyzed_hooks` folds the `on_goals_analyzed`
transformations of the enabled, loaded plugins in `enabled_plugins` order,
each plugin's return value becoming the next plugin's input; with plugin
`p1` appending "a" enabled before plugin `p2` appending "b", the result is
`goals ++ [a, b]`, not `[b, a]`. -/
theorem C2_goals_fold_order :
    (∀ (pm : PluginManager) (goals : List String) (gt : String),
        (pm.call_goals_analyzed_hooks goals gt).1
          = pm.effectivePlugins.foldl
              (fun acc q =>
                match q.2.on_goals_analyzed acc gt with
                | .ok new => new
                | .error _ => acc) goals)
    ∧ (∀ (goals : List String) (gt : String),
        (pmAppendAB.call_goals_analyzed_hooks goals gt).1 = goals ++ ["a", "b"]) := by
  constructor
  · intro pm goals gt
    exact goals_foldl_result pm.loaded_plugins gt pm.enabled_plugins goals []
  · intro goals gt
    show (goals ++ ["a"]) ++ ["b"] = goals ++ ["a", "b"]
    simp

/-- C6: saving the `enabled_plugins` list with `save_settings` and reloading
the resulting file with `load_settings` restores an equal list. -/
theorem C6_settings_round_trip (pm : PluginManager) :
    (pm.load_settings (some (save_settings pm))).enabled_plugins
      = pm.enabled_plugins := by
  show pyStrings (pm.enabled_plugins.map PyValue.strV) = pm.enabled_plugins
  exact pyStrings_map_strV pm.enabled_plugins

/-- C8: both session-end paths invoke `call_session_end_hooks` on their
session-data dict; the dict of `stop_focus_mode` carries
`early_termination = True`, the dict of `session_complete` has no such key,
and both dicts carry `duration`, `planned_duration`, `goals`,
`completed_goals`, `app_usage` and `end_time`. -/
theorem C8_session_end_dict_tagging (pm : PluginManager) (st : SessionState)
    (now endNow : ℚ) :
    session_complete_hook_calls pm st now endNow
        = pm.call_session_end_hooks (session_complete_data st now endNow)
    ∧ stop_focus_mode_hook_calls pm st now endNow
        = pm.call_session_end_hooks (stop_focus_mode_data st now endNow)
    ∧ alookup "early_termination" (stop_focus_mode_data st now endNow)
        = some (.boolV true)
    ∧ alookup "early_termination" (session_complete_data st now endNow) = none
    ∧ (["duration", "planned_duration", "goals", "completed_goals",
        "app_usage", "end_time"].all fun k =>
          (alookup k (session_complete_data st now endNow)).isSome
          && (alookup k (stop_focus_mode_data st now endNow)).isSome) = true :=
  ⟨rfl, rfl, rfl, rfl, rfl⟩

/-- C9: with no active session (`_progress_popup is None`), the `PluginBase`
checklist accessors return the safe defaults `0.0`, `[]`, `[]` and `False`. -/
theorem C9_checklist_safe_defaults (p : PluginBaseObj)
    (h : p.progress_popup = none) (it : String) (b : Bool) :
    p.get_checklist_progress_percentage = 0
    ∧ p.get_completed_checklist_items = []
    ∧ p.get_all_checklist_items = []
    ∧ p.set_checklist_item_checked it b = false := by
  unfold PluginBaseObj.get_checklist_progress_percentage
         PluginBaseObj.get_completed_checklist_items
         PluginBaseObj.get_all_checklist_items
         PluginBaseObj.set_checklist_item_checked
  rw [h]
  exact ⟨rfl, rfl, rfl, rfl⟩

/-- Witness for C9 on a concrete session-less `PluginBase` object. -/
theorem C9_checklist_safe_defaults_witness :
    pbNoSession.progress_popup = none
    ∧ (pbNoSession.get_checklist_progress_percentage = 0
       ∧ pbNoSession.get_completed_checklist_items = []
       ∧ pbNoSession.get_all_checklist_items = []
       ∧ pbNoSession.set_checklist_item_checked "item" true = false) :=
  ⟨rfl, C9_checklist_safe_defaults pbNoSession rfl "item" true⟩

/-- C5: in every state of the manager and for every hook-dispatch method, a
plugin's hook is invoked only if its id is in `enabled_plugins` and is a key
of `loaded_plugins`: every entry of every dispatch trace satisfies both. -/
theorem C5_dispatch_requires_enabled_and_loaded
    (pm : PluginManager) (goals : List String) (gt : String) (sd : SessionDict)
    (e p : ℚ) (it : String) (b : Bool) :
    (∀ r ∈ (pm.call_goals_analyzed_hooks goals gt).2,
        r.1 ∈ pm.enabled_plugins ∧ (alookup r.1 pm.loaded_plugins).isSome)
    ∧ (∀ r ∈ pm.call_session_start_hooks sd,
        r.1 ∈ pm.enabled_plugins ∧ (alookup r.1 pm.loaded_plugins).isSome)
    ∧ (∀ r ∈ pm.call_session_update_hooks e p,
        r.1 ∈ pm.enabled_plugins ∧ (alookup r.1 pm.loaded_plugins).isSome)
    ∧ (∀ r ∈ pm.call_session_end_hooks sd,
        r.1 ∈ pm.enabled_plugins ∧ (alookup r.1 pm.loaded_plugins).isSome)
    ∧ (∀ r ∈ pm.call_checklist_item_changed_hooks it b,
        r.1 ∈ pm.enabled_plugins ∧ (alookup r.1 pm.loaded_plugins).isSome) := by
  refine ⟨?_, ?_, ?_, ?_, ?_⟩
  · intro r hr
    rcases goals_foldl_trace_mem pm.loaded_plugins gt pm.enabled_plugins
        (pyCopy goals, []) r hr with h | h
    · exact absurd h (List.not_mem_nil r)
    · exact ⟨h.1, by rw [Option.isSome_iff_exists] at h ⊢; exact h.2⟩
  · intro r hr
    rw [call_session_start_hooks_eq] at hr
    rcases List.mem_map.mp hr with ⟨q, hq, hrq⟩
    have h2 := effectivePlugins_mem pm q hq
    cases hrq
    exact ⟨h2.1, by rw [h2.2]; rfl⟩
  · intro r hr
    rw [call_session_update_hooks_eq] at hr
    rcases List.mem_map.mp hr with ⟨q, hq, hrq⟩
    have h2 := effectivePlugins_mem pm q hq
    cases hrq
    exact ⟨h2.1, by rw [h2.2]; rfl⟩
  · intro r hr
    rw [call_session_end_hooks_eq] at hr
    rcases List.mem_map.mp hr with ⟨q, hq, hrq⟩
    have h2 := effectivePlugins_mem pm q hq
    cases hrq
    exact ⟨h2.1, by rw [h2.2]; rfl⟩
  · intro r hr
    rw [call_checklist_item_changed_hooks_eq] at hr
    rcases List.mem_map.mp hr with ⟨q, hq, hrq⟩
    have h2 := effectivePlugins_mem pm q hq
    cases hrq
    exact ⟨h2.1, by rw [h2.2]; rfl⟩

/-- Witness for C5: a concrete trace entry of the manager with a raising and
a well-behaved plugin satisfies both dispatch conditions. -/
theorem C5_dispatch_requires_enabled_and_loaded_witness :
    "ok" ∈ pmRaise.enabled_plugins
    ∧ (alookup "ok" pmRaise.loaded_plugins).isSome :=
  (C5_dispatch_requires_enabled_and_loaded pmRaise [] "" [] 0 0 "item" true).2.1
    ("ok", [], .ok ())
    (by
      rw [call_session_start_hooks_eq]
      exact List.mem_map.mpr
        ⟨("ok", noopPlugin), List.mem_cons_of_mem _ (List.mem_cons_self _ _), rfl⟩)

/-- C10: on a manager of goal plugins with distinct ids, each either raising
or applying a pure transformation, `call_goals_analyzed_hooks` passes each
plugin the list accumulated by the non-raising plugins before it (a raising
plugin leaves the accumulator unchanged for its successors, not reset to the
original input), and the final result applies exactly the non-raising
transformations in `enabled_plugins` order.  The fold starts from a copy of
the caller's list, which is itself never handed to a plugin. -/
theorem C10_goals_exception_fold
    (ps : List (String × Option (List String → List String)))
    (hnodup : (ps.map Prod.fst).Nodup) (goals : List String) (gt : String) :
    ((mkGoalsMgr ps).call_goals_analyzed_hooks goals gt).1
        = (ps.filterMap Prod.snd).foldl (fun acc f => f acc) goals
    ∧ ((mkGoalsMgr ps).call_goals_analyzed_hooks goals gt).2
        = expectedGoalsTrace gt goals ps := by
  have h2 : (mkGoalsMgr ps).call_goals_analyzed_hooks goals gt
      = ((ps.filterMap Prod.snd).foldl (fun acc f => f acc) goals,
         expectedGoalsTrace gt goals ps) := mkGoalsMgr_spec gt ps hnodup goals
  exact ⟨by rw [h2], by rw [h2]⟩

/-- Witness for C10: with `p1` appending "a", then a raiser, then `p2`
appending "b", the result applies exactly the two non-raising plugins in
order, and the trace shows `p2` receiving the list `p1` produced. -/
theorem C10_goals_exception_fold_witness :
    (psABExample.map Prod.fst).Nodup
    ∧ ((mkGoalsMgr psABExample).call_goals_analyzed_hooks ["g"] "t").1
        = (psABExample.filterMap Prod.snd).foldl (fun acc f => f acc) ["g"]
    ∧ ((mkGoalsMgr psABExample).call_goals_analyzed_hooks ["g"] "t").2
        = expectedGoalsTrace "t" ["g"] psABExample
    ∧ ((mkGoalsMgr psABExample).call_goals_analyzed_hooks ["g"] "t").1
        = ["g", "a", "b"]
    ∧ ((mkGoalsMgr psABExample).call_goals_analyzed_hooks ["g"] "t").2
        = [("p1", ["g"], .ok ["g", "a"]),
           ("boom", ["g", "a"], .error ()),
           ("p2", ["g", "a"], .ok ["g", "a", "b"])] := by
  have hnodup : (psABExample.map Prod.fst).Nodup := by decide
  have h := C10_goals_exception_fold psABExample hnodup ["g"] "t"
  exact ⟨hnodup, h.1, h.2, rfl, rfl⟩

/-- C3: disabling an enabled plugin removes its id from `enabled_plugins`
(so no hook dispatch reaches it any more), calls the loaded instance's
`cleanup()` exactly once, persists the updated settings, and returns `True`;
disabling an id that is not enabled returns `False` and changes no state.
Stated for duplicate-free enabled lists — the spec's "enabled plugin sets" —
and for non-raising `cleanup`. -/
theorem C3_disable_plugin_semantics (pm : PluginManager) (pid : String)
    (hnodup : pm.enabled_plugins.Nodup)
    (hclean : ∀ inst, alookup pid pm.loaded_plugins = some inst →
        inst.cleanupFn = .ok ()) :
    (pid ∈ pm.enabled_plugins →
        pid ∉ (pm.disable_plugin pid).1.enabled_plugins
        ∧ countCleanupCalls pid (pm.disable_plugin pid).2.1
            = (if (alookup pid pm.loaded_plugins).isSome then 1 else 0)
        ∧ Effect.saveSettingsWrite (save_settings (pm.disable_plugin pid).1)
            ∈ (pm.disable_plugin pid).2.1
        ∧ (pm.disable_plugin pid).2.2 = .ok true
        ∧ ∀ (sd : SessionDict) r,
            r ∈ (pm.disable_plugin pid).1.call_session_start_hooks sd →
            r.1 ≠ pid)
    ∧ (pid ∉ pm.enabled_plugins → pm.disable_plugin pid = (pm, [], .ok false)) := by
  constructor
  · intro hmem
    cases hl : alookup pid pm.loaded_plugins with
    | some inst =>
      have hco := hclean inst hl
      have heq : pm.disable_plugin pid
          = ({ pm with enabled_plugins := pyRemove pid pm.enabled_plugins,
                       loaded_plugins := setPluginEnabled pm.loaded_plugins pid false },
             [.cleanupCall pid,
              .saveSettingsWrite (save_settings
                { pm with enabled_plugins := pyRemove pid pm.enabled_plugins,
                          loaded_plugins := setPluginEnabled pm.loaded_plugins pid false })],
             .ok true) := by
        simp [PluginManager.disable_plugin, hmem, hl, hco]
      rw [heq]
      refine ⟨pyRemove_not_mem pid pm.enabled_plugins hnodup, ?_, ?_, rfl, ?_⟩
      · simp [countCleanupCalls, hl]
      · simp
      · intro sd r hr
        rw [call_session_start_hooks_eq] at hr
        rcases List.mem_map.mp hr with ⟨q, hq, hrq⟩
        have h2 := effectivePlugins_mem _ q hq
        cases hrq
        intro hrpid
        exact pyRemove_not_mem pid pm.enabled_plugins hnodup (hrpid ▸ h2.1)
    | none =>
      have heq : pm.disable_plugin pid
          = ({ pm with enabled_plugins := pyRemove pid pm.enabled_plugins },
             [.saveSettingsWrite (save_settings
                { pm with enabled_plugins := pyRemove pid pm.enabled_plugins })],
             .ok true) := by
        simp [PluginManager.disable_plugin, hmem, hl]
      rw [heq]
      refine ⟨pyRemove_not_mem pid pm.enabled_plugins hnodup, ?_, ?_, rfl, ?_⟩
      · simp [countCleanupCalls, hl]
      · simp
      · intro sd r hr
        rw [call_session_start_hooks_eq] at hr
        rcases List.mem_map.mp hr with ⟨q, hq, hrq⟩
        have h2 := effectivePlugins_mem _ q hq
        cases hrq
        intro hrpid
        exact pyRemove_not_mem pid pm.enabled_plugins hnodup (hrpid ▸ h2.1)
  · intro hnot
    simp [PluginManager.disable_plugin, hnot]

/-- Counterexample to C3 as stated: `disable_plugin`, unlike
`cleanup_all_plugins`, does not guard the `cleanup()` call with a `try`, so
disabling the enabled, loaded plugin `p1` whose `cleanup()` raises
propagates the exception: the effect trace holds the cleanup call but no
settings write, and no `True` is returned. -/
theorem C3_disable_plugin_counterexample :
    "p1" ∈ pmBadCleanup.enabled_plugins
    ∧ (pmBadCleanup.disable_plugin "p1").2.1 = [Effect.cleanupCall "p1"]
    ∧ (pmBadCleanup.disable_plugin "p1").2.2 = .error () :=
  ⟨List.mem_cons_self _ _, rfl, rfl⟩

/-- Witness for C3: on a manager with the single enabled, loaded plugin
`p1`, disabling `p1` empties the enabled list, calls its cleanup once,
writes the settings and returns `True`; disabling the unknown id `zz`
returns `False` and changes nothing. -/
theorem C3_disable_plugin_semantics_witness :
    "p1" ∉ (pmOne.disable_plugin "p1").1.enabled_plugins
    ∧ countCleanupCalls "p1" (pmOne.disable_plugin "p1").2.1 = 1
    ∧ Effect.saveSettingsWrite (save_settings (pmOne.disable_plugin "p1").1)
        ∈ (pmOne.disable_plugin "p1").2.1
    ∧ (pmOne.disable_plugin "p1").2.2 = .ok true
    ∧ pmOne.disable_plugin "zz" = (pmOne, [], .ok false) := by
  have hclean1 : ∀ inst, alookup "p1" pmOne.loaded_plugins = some inst →
      inst.cleanupFn = .ok () := by
    intro inst hi
    injection hi with h
    exact h ▸ rfl
  have hclean2 : ∀ inst, alookup "zz" pmOne.loaded_plugins = some inst →
      inst.cleanupFn = .ok () := by
    intro inst hi
    exact absurd hi (by simp [pmOne, alookup])
  have h1 := (C3_disable_plugin_semantics pmOne "p1" (by simp [pmOne]) hclean1).1
    (by simp [pmOne])
  have h2 := (C3_disable_plugin_semantics pmOne "zz" (by simp [pmOne]) hclean2).2
    (by simp [pmOne])
  exact ⟨h1.1, h1.2.1, h1.2.2.1, h1.2.2.2.1, h2⟩

/-- C4: enabling an available plugin whose `initialize()` returns `False` or
raises returns `False` and leaves the manager unchanged: the plugin is
absent from `loaded_plugins` and (having not been enabled before) absent
from `enabled_plugins`; in particular for the spec's manifest
`{"name":"X","version":"1.0","description":"d","main_file":"plugin.py"}`
with an `initialize` returning `False`, `enable_plugin("x")` returns `False`
and `x` is not in `loaded_plugins`. -/
theorem C4_enable_plugin_failed_initialisation :
    (∀ (pm : PluginManager) (pid : String) (m : Manifest) (inst : PluginInstance),
        alookup pid pm.available_plugins = some m →
        alookup pid pm.loaded_plugins = none →
        pid ∉ pm.enabled_plugins →
        m.loadResult = .ok (some inst) →
        (inst.initFn = .ok false ∨ inst.initFn = .error ()) →
        pm.enable_plugin pid = (pm, [], false)
        ∧ alookup pid (pm.enable_plugin pid).1.loaded_plugins = none
        ∧ pid ∉ (pm.enable_plugin pid).1.enabled_plugins)
    ∧ (pmX.enable_plugin "x" = (pmX, [], false)
       ∧ alookup "x" (pmX.enable_plugin "x").1.loaded_plugins = none) := by
  have hgen : ∀ (pm : PluginManager) (pid : String) (m : Manifest)
      (inst : PluginInstance),
      alookup pid pm.available_plugins = some m →
      alookup pid pm.loaded_plugins = none →
      pid ∉ pm.enabled_plugins →
      m.loadResult = .ok (some inst) →
      (inst.initFn = .ok false ∨ inst.initFn = .error ()) →
      pm.enable_plugin pid = (pm, [], false)
      ∧ alookup pid (pm.enable_plugin pid).1.loaded_plugins = none
      ∧ pid ∉ (pm.enable_plugin pid).1.enabled_plugins := by
    intro pm pid m inst h1 h2 h3 h4 h5
    have hload : pm.load_plugin pid = (pm, false) := by
      unfold PluginManager.load_plugin
      rw [h1, h2]
      rcases h5 with h5 | h5 <;> simp [h4, h5]
    have henable : pm.enable_plugin pid = (pm, [], false) := by
      unfold PluginManager.enable_plugin
      rw [h1, hload]
    refine ⟨henable, ?_, ?_⟩
    · rw [henable]; exact h2
    · rw [henable]; exact h3
  refine ⟨hgen, ?_⟩
  obtain ⟨ha, hb, -⟩ := hgen pmX "x" manifestX failingInitPlugin rfl rfl
    (List.not_mem_nil "x") rfl (Or.inl rfl)
  exact ⟨ha, hb⟩

/-- Witness for C4: the spec's manifest scenario, evaluated. -/
theorem C4_enable_plugin_failed_initialisation_witness :
    pmX.enable_plugin "x" = (pmX, [], false)
    ∧ alookup "x" (pmX.enable_plugin "x").1.loaded_plugins = none
    ∧ "x" ∉ (pmX.enable_plugin "x").1.enabled_plugins :=
  C4_enable_plugin_failed_initialisation.1 pmX "x" manifestX failingInitPlugin
    rfl rfl (List.not_mem_nil "x") rfl (Or.inl rfl)

/-- C7: the settings file can hold `enabled_plugins` and `app_settings`
side by side, and the dialog's `save_popup_interval_setting` preserves the
other keys when it writes; but the file `PluginManager.save_settings` writes
on enable/disable contains only `enabled_plugins`, so a pre-existing
`app_settings` mapping is dropped rather than preserved. -/
theorem C7_save_settings_drops_app_settings :
    (alookup "app_settings" bothFields).isSome = true
    ∧ (alookup "enabled_plugins" bothFields).isSome = true
    ∧ (pmOne.disable_plugin "p1").2.1
        = [Effect.cleanupCall "p1",
           Effect.saveSettingsWrite (.dictV [("enabled_plugins", .listV [])])]
    ∧ alookup "app_settings" [("enabled_plugins", PyValue.listV [])] = none
    ∧ save_popup_interval_setting (some (.dictV bothFields)) 3
        = some (.dictV
            [("enabled_plugins", .listV [.strV "p1"]),
             ("app_settings", .dictV [("popup_interval_minutes", .numV 3),
                                      ("breath_duration_seconds", .numV 15)])]) :=
  ⟨rfl, rfl, rfl, rfl, rfl⟩

end FocusUtility
